import Mathlib

/-!
Shallow embedding of `optimum/exporters/tasks.py` (the `TasksManager`
registry and resolution layer) and proofs about it.

Modelling conventions:
* Python `dict`s become association lists `List (String × α)` with
  Python-dict semantics: `dictGet` returns the value of the (unique) key,
  `dictInsert` replaces the value in place when the key is present and
  appends otherwise (Python dicts preserve insertion order).
* Python string methods (`replace`, `startswith`, `endswith`, `lower`) are
  embedded as executable functions on the character list of the string.
  (`String.replace` from the Lean core library is defined by well-founded
  recursion and does not reduce definitionally, so we use a fuel-based
  structurally recursive version; the fuel `s.length` is always enough
  because every step consumes at least one character.)
* Exceptions become `Except`/`Option` results carrying the data that the
  Python exception message is built from.
* The in-place mutation performed by the `create_register` decorator is
  modelled by explicitly returning the post-state of the registry,
  including the partial state left behind when the decorator raises
  half-way through its task list (Python dict aliasing).
-/

/-! ## Python string primitives -/

/-- One step of Python's `str.replace`: scan the character list, replacing
every occurrence of `pat` by `repl`.  `fuel` bounds the recursion; it is
initialised with the length of the subject string, which suffices because
each step consumes at least `max pat.length 1 ≥ 1` characters. -/
def replaceFuel (pat repl : List Char) : Nat → List Char → List Char
  | 0, s => s
  | _ + 1, [] => []
  | fuel + 1, c :: rest =>
    if pat.isPrefixOf (c :: rest) then
      repl ++ replaceFuel pat repl fuel ((c :: rest).drop (max pat.length 1))
    else
      c :: replaceFuel pat repl fuel rest

/-- Embedding of Python `s.replace(pat, repl)` (all occurrences, left to
right; the tables only ever use non-empty patterns). -/
def pyReplace (s pat repl : String) : String :=
  ⟨replaceFuel pat.data repl.data s.data.length s.data⟩

/-- Embedding of Python `s.startswith(pre)`. -/
def pyStartsWith (s pre : String) : Bool :=
  pre.data.isPrefixOf s.data

/-- Embedding of Python `s.endswith(suf)`. -/
def pyEndsWith (s suf : String) : Bool :=
  suf.data.isSuffixOf s.data

/-- Helper for `pyContains`: does `pat` occur as a contiguous sublist? -/
def containsAux (pat : List Char) : List Char → Bool
  | [] => pat.isEmpty
  | c :: rest => pat.isPrefixOf (c :: rest) || containsAux pat rest

/-- Embedding of Python `sub in s` (substring containment). -/
def pyContains (s sub : String) : Bool :=
  containsAux sub.data s.data

/-- Embedding of Python `s.lower()` (the model-type strings handled by the
registry are ASCII, where `Char.toLower` agrees with Python). -/
def pyLower (s : String) : String :=
  ⟨s.data.map Char.toLower⟩

/-- Embedding of Python `list(set(xs))` up to ordering: keep the first
occurrence of each element (the iteration order of a Python `set` is
unspecified; only membership matters to the program). -/
def dedupFirst : List String → List String → List String
  | [], _ => []
  | x :: xs, seen =>
    if seen.contains x then dedupFirst xs seen else x :: dedupFirst xs (x :: seen)

/-! ## Python dict primitives -/

/-- `d[k]` / `d.get(k)`: value of the first (unique) binding of `k`. -/
def dictGet {α : Type} : List (String × α) → String → Option α
  | [], _ => none
  | (k, v) :: d, key => if key = k then some v else dictGet d key

/-- `d[k] = v`: replace the binding in place when present (Python dicts
keep the key's position), append otherwise. -/
def dictInsert {α : Type} : List (String × α) → String → α → List (String × α)
  | [], key, v => [(key, v)]
  | (k, w) :: d, key, v =>
    if key = k then (key, v) :: d else (k, w) :: dictInsert d key v

/-- `{**a, **b}` / `a.update(b)`: insert every binding of `b` into `a`. -/
def dictUpdate {α : Type} (a b : List (String × α)) : List (String × α) :=
  b.foldl (fun acc p => dictInsert acc p.1 p.2) a

/-- `list(d.keys())`. -/
def dictKeys {α : Type} (d : List (String × α)) : List String :=
  d.map (·.1)

/-! ## Basic lemmas about the dict primitives -/

theorem dictGet_dictInsert {α : Type} (d : List (String × α)) (k t : String) (v : α) :
    dictGet (dictInsert d k v) t = if t = k then some v else dictGet d t := by
  induction d with
  | nil => simp [dictInsert, dictGet]
  | cons hd tl ih =>
    obtain ⟨k', w⟩ := hd
    by_cases hk : k = k'
    · subst hk
      by_cases ht : t = k <;> simp [dictInsert, dictGet, ht]
    · by_cases ht : t = k'
      · subst ht
        have htk : t ≠ k := fun h => hk h.symm
        simp [dictInsert, dictGet, hk, htk]
      · simp [dictInsert, dictGet, hk, ht, ih]

theorem dictInsert_eq_self {α : Type} (d : List (String × α)) (k : String) (v : α)
    (h : dictGet d k = some v) : dictInsert d k v = d := by
  induction d with
  | nil => simp [dictGet] at h
  | cons hd tl ih =>
    obtain ⟨k', w⟩ := hd
    by_cases hk : k = k'
    · subst hk
      simp [dictGet] at h
      simp [dictInsert, h]
    · simp [dictGet, hk] at h
      simp [dictInsert, hk, ih h]

/-! ## Data model -/

/-- Value type of the `*_TASKS_TO_MODEL_LOADERS` tables: either a single
auto-loader class name or a tuple of candidates. -/
inductive LoaderSpec where
  | single (cls : String)
  | multi (clss : List String)
deriving DecidableEq, Repr

/-- An export-config class, as far as the registry observes it: its name
and its `SUPPORTS_PAST` class attribute (queried by
`make_backend_config_constructor_for_task`). -/
structure ConfigCls where
  name : String
  supportsPast : Bool
deriving DecidableEq, Repr

/-- The deferred factory stored in the registry tables:
`partial(config_cls, task=...)`, plus `use_past=True` when the registered
task carries the "-with-past" suffix. -/
structure ExportConfigConstructor where
  cls : ConfigCls
  task : String
  usePast : Bool
deriving DecidableEq, Repr

abbrev TaskDict := List (String × ExportConfigConstructor)
abbrev BackendDict := List (String × TaskDict)
abbrev ModelTypeDict := List (String × BackendDict)
abbrev Registry := List (String × ModelTypeDict)

/-- The exceptions that the registration path can raise, carrying the data
their Python messages are built from. -/
inductive RegError where
  | unknownLibrary (library : String)
  | unknownTask (normalizedTask : String) (knownTasks : List String)
  | noPastSupport (cls : String)
deriving DecidableEq, Repr

/-- `make_backend_config_constructor_for_task` (tasks.py lines 69-76). -/
def make_backend_config_constructor_for_task (config_cls : ConfigCls) (task : String) :
    Except RegError ExportConfigConstructor :=
  if pyContains task "-with-past" then
    if !config_cls.supportsPast then
      .error (.noPastSupport config_cls.name)
    else
      .ok ⟨config_cls, pyReplace task "-with-past" "", true⟩
  else
    .ok ⟨config_cls, task, false⟩

/-- A positional argument of `supported_tasks_mapping`: a plain task name,
or a task restricted to a subset of the backends
(e.g. `("multiple-choice", ("onnx",))`). -/
inductive TaskSpec where
  | plain (task : String)
  | restricted (task : String) (backends : List String)

/-- `is_backend_available` (tasks.py lines 61-66); parameterised on the
runtime availability of the onnx package and of TensorFlow.  The source
raises `KeyError` for a backend other than "onnx"/"tflite"; the static
tables only ever pass those two. -/
def is_backend_available (onnxA tfA : Bool) (backend : String) : Bool :=
  if backend = "onnx" then onnxA else if backend = "tflite" then tfA else false

/-- Modelled from the spec: the export-config classes named in the static
tables are external collaborators; the module imports successfully, so
every class registered there for a "-with-past" task declares past-key-value
support, hence `supportsPast := true`. -/
def tableConfigCls (name : String) : ConfigCls := ⟨name, true⟩

/-- `supported_tasks_mapping` (tasks.py lines 79-123).  The `.error`
branch of the inner match is unreachable for the static tables because
`tableConfigCls` declares past support. -/
def supported_tasks_mapping (onnxA tfA : Bool) (supported_tasks : List TaskSpec)
    (exporters : List (String × String)) : BackendDict :=
  exporters.foldl (fun mapping pe =>
    if is_backend_available onnxA tfA pe.1 then
      dictInsert mapping pe.1 (supported_tasks.foldl (fun d ts =>
        let p := match ts with
          | TaskSpec.plain t => (t, true)
          | TaskSpec.restricted t bs => (t, bs.contains pe.1)
        if p.2 then
          match make_backend_config_constructor_for_task (tableConfigCls pe.2) p.1 with
          | .ok c => dictInsert d p.1 c
          | .error _ => d
        else d) [])
    else mapping) []

/-! ## Static tables (transcribed from tasks.py lines 147-336 and 341-1110) -/

def TRANSFORMERS_TASKS_TO_MODEL_LOADERS : List (String × LoaderSpec) := [
  ("audio-classification", LoaderSpec.single "AutoModelForAudioClassification"),
  ("audio-frame-classification", LoaderSpec.single "AutoModelForAudioFrameClassification"),
  ("audio-xvector", LoaderSpec.single "AutoModelForAudioXVector"),
  ("automatic-speech-recognition", LoaderSpec.multi ["AutoModelForSpeechSeq2Seq", "AutoModelForCTC"]),
  ("conversational", LoaderSpec.multi ["AutoModelForCausalLM", "AutoModelForSeq2SeqLM"]),
  ("depth-estimation", LoaderSpec.single "AutoModelForDepthEstimation"),
  ("feature-extraction", LoaderSpec.single "AutoModel"),
  ("fill-mask", LoaderSpec.single "AutoModelForMaskedLM"),
  ("image-classification", LoaderSpec.single "AutoModelForImageClassification"),
  ("image-segmentation", LoaderSpec.multi ["AutoModelForImageSegmentation", "AutoModelForSemanticSegmentation"]),
  ("image-to-image", LoaderSpec.single "AutoModelForImageToImage"),
  ("image-to-text", LoaderSpec.single "AutoModelForVision2Seq"),
  ("mask-generation", LoaderSpec.single "AutoModel"),
  ("masked-im", LoaderSpec.single "AutoModelForMaskedImageModeling"),
  ("multiple-choice", LoaderSpec.single "AutoModelForMultipleChoice"),
  ("object-detection", LoaderSpec.single "AutoModelForObjectDetection"),
  ("question-answering", LoaderSpec.single "AutoModelForQuestionAnswering"),
  ("semantic-segmentation", LoaderSpec.single "AutoModelForSemanticSegmentation"),
  ("text-to-audio", LoaderSpec.multi ["AutoModelForTextToSpectrogram", "AutoModelForTextToWaveform"]),
  ("text-generation", LoaderSpec.single "AutoModelForCausalLM"),
  ("text2text-generation", LoaderSpec.single "AutoModelForSeq2SeqLM"),
  ("text-classification", LoaderSpec.single "AutoModelForSequenceClassification"),
  ("token-classification", LoaderSpec.single "AutoModelForTokenClassification"),
  ("zero-shot-image-classification", LoaderSpec.single "AutoModelForZeroShotImageClassification"),
  ("zero-shot-object-detection", LoaderSpec.single "AutoModelForZeroShotObjectDetection")
]

def DIFFUSERS_TASKS_TO_MODEL_LOADERS : List (String × LoaderSpec) := [
  ("stable-diffusion", LoaderSpec.single "StableDiffusionPipeline"),
  ("stable-diffusion-xl", LoaderSpec.single "StableDiffusionXLImg2ImgPipeline")
]

def TIMM_TASKS_TO_MODEL_LOADERS : List (String × LoaderSpec) := [
  ("image-classification", LoaderSpec.single "create_model")
]

def SENTENCE_TRANSFORMERS_TASKS_TO_MODEL_LOADERS : List (String × LoaderSpec) := [
  ("feature-extraction", LoaderSpec.single "SentenceTransformer"),
  ("sentence-similarity", LoaderSpec.single "SentenceTransformer")
]

def TRANSFORMERS_TASKS_TO_TF_MODEL_LOADERS : List (String × LoaderSpec) := [
  ("conversational", LoaderSpec.multi ["TFAutoModelForCausalLM", "TFAutoModelForSeq2SeqLM"]),
  ("document-question-answering", LoaderSpec.single "TFAutoModelForDocumentQuestionAnswering"),
  ("feature-extraction", LoaderSpec.single "TFAutoModel"),
  ("fill-mask", LoaderSpec.single "TFAutoModelForMaskedLM"),
  ("text-generation", LoaderSpec.single "TFAutoModelForCausalLM"),
  ("image-classification", LoaderSpec.single "TFAutoModelForImageClassification"),
  ("text2text-generation", LoaderSpec.single "TFAutoModelForSeq2SeqLM"),
  ("text-classification", LoaderSpec.single "TFAutoModelForSequenceClassification"),
  ("token-classification", LoaderSpec.single "TFAutoModelForTokenClassification"),
  ("multiple-choice", LoaderSpec.single "TFAutoModelForMultipleChoice"),
  ("object-detection", LoaderSpec.single "TFAutoModelForObjectDetection"),
  ("question-answering", LoaderSpec.single "TFAutoModelForQuestionAnswering"),
  ("image-segmentation", LoaderSpec.single "TFAutoModelForImageSegmentation"),
  ("masked-im", LoaderSpec.single "TFAutoModelForMaskedImageModeling"),
  ("semantic-segmentation", LoaderSpec.single "TFAutoModelForSemanticSegmentation"),
  ("automatic-speech-recognition", LoaderSpec.single "TFAutoModelForSpeechSeq2Seq"),
  ("audio-classification", LoaderSpec.single "TFAutoModelForAudioClassification"),
  ("audio-frame-classification", LoaderSpec.single "TFAutoModelForAudioFrameClassification"),
  ("audio-xvector", LoaderSpec.single "TFAutoModelForAudioXVector"),
  ("image-to-text", LoaderSpec.single "TFAutoModelForVision2Seq"),
  ("zero-shot-image-classification", LoaderSpec.single "TFAutoModelForZeroShotImageClassification"),
  ("zero-shot-object-detection", LoaderSpec.single "TFAutoModelForZeroShotObjectDetection")
]

def SYNONYM_TASK_MAP : List (String × String) := [
  ("audio-ctc", "automatic-speech-recognition"),
  ("causal-lm", "text-generation"),
  ("causal-lm-with-past", "text-generation-with-past"),
  ("default", "feature-extraction"),
  ("default-with-past", "feature-extraction-with-past"),
  ("masked-lm", "fill-mask"),
  ("mask-generation", "feature-extraction"),
  ("sentence-similarity", "feature-extraction"),
  ("seq2seq-lm", "text2text-generation"),
  ("seq2seq-lm-with-past", "text2text-generation-with-past"),
  ("sequence-classification", "text-classification"),
  ("speech2seq-lm", "automatic-speech-recognition"),
  ("speech2seq-lm-with-past", "automatic-speech-recognition-with-past"),
  ("summarization", "text2text-generation"),
  ("text-to-speech", "text-to-audio"),
  ("translation", "text2text-generation"),
  ("vision2seq-lm", "image-to-text"),
  ("zero-shot-classification", "text-classification"),
  ("image-feature-extraction", "feature-extraction")
]

def MODEL_TYPE_FOR_DEFAULT_CONFIG : List (String × String) := [
  ("timm", "default-timm-config")
]

def DIFFUSERS_SUPPORTED_MODEL_TYPE (onnxA tfA : Bool) : ModelTypeDict := [
  ("clip-text-model",
    supported_tasks_mapping onnxA tfA [
      TaskSpec.plain "feature-extraction"]
      [("onnx", "CLIPTextOnnxConfig")]),
  ("clip-text-with-projection",
    supported_tasks_mapping onnxA tfA [
      TaskSpec.plain "feature-extraction"]
      [("onnx", "CLIPTextWithProjectionOnnxConfig")]),
  ("unet",
    supported_tasks_mapping onnxA tfA [
      TaskSpec.plain "semantic-segmentation"]
      [("onnx", "UNetOnnxConfig")]),
  ("vae-encoder",
    supported_tasks_mapping onnxA tfA [
      TaskSpec.plain "semantic-segmentation"]
      [("onnx", "VaeEncoderOnnxConfig")]),
  ("vae-decoder",
    supported_tasks_mapping onnxA tfA [
      TaskSpec.plain "semantic-segmentation"]
      [("onnx", "VaeDecoderOnnxConfig")])
]

def TIMM_SUPPORTED_MODEL_TYPE (onnxA tfA : Bool) : ModelTypeDict := [
  ("default-timm-config",
    supported_tasks_mapping onnxA tfA [
      TaskSpec.plain "image-classification"]
      [("onnx", "TimmDefaultOnnxConfig")])
]

def SENTENCE_TRANSFORMERS_SUPPORTED_MODEL_TYPE (onnxA tfA : Bool) : ModelTypeDict := [
  ("clip",
    supported_tasks_mapping onnxA tfA [
      TaskSpec.plain "feature-extraction",
      TaskSpec.plain "sentence-similarity"]
      [("onnx", "SentenceTransformersCLIPOnnxConfig")]),
  ("transformer",
    supported_tasks_mapping onnxA tfA [
      TaskSpec.plain "feature-extraction",
      TaskSpec.plain "sentence-similarity"]
      [("onnx", "SentenceTransformersTransformerOnnxConfig")])
]

def SUPPORTED_MODEL_TYPE (onnxA tfA : Bool) : ModelTypeDict := [
  ("audio-spectrogram-transformer",
    supported_tasks_mapping onnxA tfA [
      TaskSpec.plain "feature-extraction",
      TaskSpec.plain "audio-classification"]
      [("onnx", "ASTOnnxConfig")]),
  ("albert",
    supported_tasks_mapping onnxA tfA [
      TaskSpec.plain "feature-extraction",
      TaskSpec.plain "fill-mask",
      TaskSpec.plain "text-classification",
      TaskSpec.plain "multiple-choice",
      TaskSpec.plain "token-classification",
      TaskSpec.plain "question-answering"]
      [("onnx", "AlbertOnnxConfig"), ("tflite", "AlbertTFLiteConfig")]),
  ("bart",
    supported_tasks_mapping onnxA tfA [
      TaskSpec.plain "feature-extraction",
      TaskSpec.plain "feature-extraction-with-past",
      TaskSpec.plain "text-generation",
      TaskSpec.plain "text-generation-with-past",
      TaskSpec.plain "text2text-generation",
      TaskSpec.plain "text2text-generation-with-past",
      TaskSpec.plain "text-classification",
      TaskSpec.plain "question-answering"]
      [("onnx", "BartOnnxConfig")]),
  ("beit",
    supported_tasks_mapping onnxA tfA [
      TaskSpec.plain "feature-extraction",
      TaskSpec.plain "image-classification"]
      [("onnx", "BeitOnnxConfig")]),
  ("bert",
    supported_tasks_mapping onnxA tfA [
      TaskSpec.plain "feature-extraction",
      TaskSpec.plain "fill-mask",
      TaskSpec.plain "text-classification",
      TaskSpec.plain "multiple-choice",
      TaskSpec.plain "token-classification",
      TaskSpec.plain "question-answering"]
      [("onnx", "BertOnnxConfig"), ("tflite", "BertTFLiteConfig")]),
  ("blenderbot",
    supported_tasks_mapping onnxA tfA [
      TaskSpec.plain "feature-extraction",
      TaskSpec.plain "feature-extraction-with-past",
      TaskSpec.plain "text-generation",
      TaskSpec.plain "text-generation-with-past",
      TaskSpec.plain "text2text-generation",
      TaskSpec.plain "text2text-generation-with-past"]
      [("onnx", "BlenderbotOnnxConfig")]),
  ("blenderbot-small",
    supported_tasks_mapping onnxA tfA [
      TaskSpec.plain "feature-extraction",
      TaskSpec.plain "feature-extraction-with-past",
      TaskSpec.plain "text-generation",
      TaskSpec.plain "text-generation-with-past",
      TaskSpec.plain "text2text-generation",
      TaskSpec.plain "text2text-generation-with-past"]
      [("onnx", "BlenderbotSmallOnnxConfig")]),
  ("bloom",
    supported_tasks_mapping onnxA tfA [
      TaskSpec.plain "feature-extraction",
      TaskSpec.plain "feature-extraction-with-past",
      TaskSpec.plain "text-generation",
      TaskSpec.plain "text-generation-with-past",
      TaskSpec.plain "text-classification",
      TaskSpec.plain "token-classification"]
      [("onnx", "BloomOnnxConfig")]),
  ("camembert",
    supported_tasks_mapping onnxA tfA [
      TaskSpec.plain "feature-extraction",
      TaskSpec.plain "fill-mask",
      TaskSpec.plain "text-classification",
      TaskSpec.plain "multiple-choice",
      TaskSpec.plain "token-classification",
      TaskSpec.plain "question-answering"]
      [("onnx", "CamembertOnnxConfig"), ("tflite", "CamembertTFLiteConfig")]),
  ("clip",
    supported_tasks_mapping onnxA tfA [
      TaskSpec.plain "feature-extraction",
      TaskSpec.plain "zero-shot-image-classification"]
      [("onnx", "CLIPOnnxConfig")]),
  ("codegen",
    supported_tasks_mapping onnxA tfA [
      TaskSpec.plain "feature-extraction",
      TaskSpec.plain "feature-extraction-with-past",
      TaskSpec.plain "text-generation",
      TaskSpec.plain "text-generation-with-past"]
      [("onnx", "CodeGenOnnxConfig")]),
  ("convbert",
    supported_tasks_mapping onnxA tfA [
      TaskSpec.plain "feature-extraction",
      TaskSpec.plain "fill-mask",
      TaskSpec.plain "text-classification",
      TaskSpec.plain "multiple-choice",
      TaskSpec.plain "token-classification",
      TaskSpec.plain "question-answering"]
      [("onnx", "ConvBertOnnxConfig"), ("tflite", "ConvBertTFLiteConfig")]),
  ("convnext",
    supported_tasks_mapping onnxA tfA [
      TaskSpec.plain "feature-extraction",
      TaskSpec.plain "image-classification"]
      [("onnx", "ConvNextOnnxConfig")]),
  ("convnextv2",
    supported_tasks_mapping onnxA tfA [
      TaskSpec.plain "feature-extraction",
      TaskSpec.plain "image-classification"]
      [("onnx", "ConvNextV2OnnxConfig")]),
  ("cvt",
    supported_tasks_mapping onnxA tfA [
      TaskSpec.plain "feature-extraction",
      TaskSpec.plain "image-classification"]
      [("onnx", "CvTOnnxConfig")]),
  ("data2vec-text",
    supported_tasks_mapping onnxA tfA [
      TaskSpec.plain "feature-extraction",
      TaskSpec.plain "fill-mask",
      TaskSpec.plain "text-classification",
      TaskSpec.plain "multiple-choice",
      TaskSpec.plain "token-classification",
      TaskSpec.plain "question-answering"]
      [("onnx", "Data2VecTextOnnxConfig")]),
  ("data2vec-vision",
    supported_tasks_mapping onnxA tfA [
      TaskSpec.plain "feature-extraction",
      TaskSpec.plain "image-classification"]
      [("onnx", "Data2VecVisionOnnxConfig")]),
  ("data2vec-audio",
    supported_tasks_mapping onnxA tfA [
      TaskSpec.plain "feature-extraction",
      TaskSpec.plain "automatic-speech-recognition",
      TaskSpec.plain "audio-classification",
      TaskSpec.plain "audio-frame-classification",
      TaskSpec.plain "audio-xvector"]
      [("onnx", "Data2VecAudioOnnxConfig")]),
  ("deberta",
    supported_tasks_mapping onnxA tfA [
      TaskSpec.plain "feature-extraction",
      TaskSpec.plain "fill-mask",
      TaskSpec.plain "text-classification",
      TaskSpec.plain "token-classification",
      TaskSpec.plain "question-answering"]
      [("onnx", "DebertaOnnxConfig"), ("tflite", "DebertaTFLiteConfig")]),
  ("deberta-v2",
    supported_tasks_mapping onnxA tfA [
      TaskSpec.plain "feature-extraction",
      TaskSpec.plain "fill-mask",
      TaskSpec.plain "text-classification",
      TaskSpec.restricted "multiple-choice" ["onnx"],
      TaskSpec.plain "token-classification",
      TaskSpec.plain "question-answering"]
      [("onnx", "DebertaV2OnnxConfig"), ("tflite", "DebertaV2TFLiteConfig")]),
  ("deit",
    supported_tasks_mapping onnxA tfA [
      TaskSpec.plain "feature-extraction",
      TaskSpec.plain "image-classification",
      TaskSpec.plain "masked-im"]
      [("onnx", "DeiTOnnxConfig")]),
  ("detr",
    supported_tasks_mapping onnxA tfA [
      TaskSpec.plain "feature-extraction",
      TaskSpec.plain "object-detection",
      TaskSpec.plain "image-segmentation"]
      [("onnx", "DetrOnnxConfig")]),
  ("distilbert",
    supported_tasks_mapping onnxA tfA [
      TaskSpec.plain "feature-extraction",
      TaskSpec.plain "fill-mask",
      TaskSpec.plain "text-classification",
      TaskSpec.plain "multiple-choice",
      TaskSpec.plain "token-classification",
      TaskSpec.plain "question-answering"]
      [("onnx", "DistilBertOnnxConfig"), ("tflite", "DistilBertTFLiteConfig")]),
  ("donut",
    supported_tasks_mapping onnxA tfA [
      TaskSpec.plain "image-to-text",
      TaskSpec.plain "image-to-text-with-past",
      TaskSpec.plain "document-question-answering",
      TaskSpec.plain "document-question-answering-with-past"]
      [("onnx", "VisionEncoderDecoderOnnxConfig")]),
  ("donut-swin",
    supported_tasks_mapping onnxA tfA [
      TaskSpec.plain "feature-extraction"]
      [("onnx", "DonutSwinOnnxConfig")]),
  ("dpt",
    supported_tasks_mapping onnxA tfA [
      TaskSpec.plain "feature-extraction",
      TaskSpec.plain "depth-estimation",
      TaskSpec.plain "image-segmentation",
      TaskSpec.plain "semantic-segmentation"]
      [("onnx", "DptOnnxConfig")]),
  ("electra",
    supported_tasks_mapping onnxA tfA [
      TaskSpec.plain "feature-extraction",
      TaskSpec.plain "fill-mask",
      TaskSpec.plain "text-classification",
      TaskSpec.plain "multiple-choice",
      TaskSpec.plain "token-classification",
      TaskSpec.plain "question-answering"]
      [("onnx", "ElectraOnnxConfig"), ("tflite", "ElectraTFLiteConfig")]),
  ("encoder-decoder",
    supported_tasks_mapping onnxA tfA [
      TaskSpec.plain "text2text-generation",
      TaskSpec.plain "text2text-generation-with-past"]
      [("onnx", "EncoderDecoderOnnxConfig")]),
  ("esm",
    supported_tasks_mapping onnxA tfA [
      TaskSpec.plain "feature-extraction",
      TaskSpec.plain "fill-mask",
      TaskSpec.plain "text-classification",
      TaskSpec.plain "token-classification"]
      [("onnx", "EsmOnnxConfig")]),
  ("falcon",
    supported_tasks_mapping onnxA tfA [
      TaskSpec.plain "feature-extraction",
      TaskSpec.plain "feature-extraction-with-past",
      TaskSpec.plain "question-answering",
      TaskSpec.plain "text-generation",
      TaskSpec.plain "text-generation-with-past",
      TaskSpec.plain "token-classification"]
      [("onnx", "FalconOnnxConfig")]),
  ("flaubert",
    supported_tasks_mapping onnxA tfA [
      TaskSpec.plain "feature-extraction",
      TaskSpec.plain "fill-mask",
      TaskSpec.plain "text-classification",
      TaskSpec.plain "multiple-choice",
      TaskSpec.plain "token-classification",
      TaskSpec.plain "question-answering"]
      [("onnx", "FlaubertOnnxConfig"), ("tflite", "FlaubertTFLiteConfig")]),
  ("gemma",
    supported_tasks_mapping onnxA tfA [
      TaskSpec.plain "feature-extraction",
      TaskSpec.plain "feature-extraction-with-past",
      TaskSpec.plain "text-generation",
      TaskSpec.plain "text-generation-with-past",
      TaskSpec.plain "text-classification"]
      [("onnx", "GemmaOnnxConfig")]),
  ("glpn",
    supported_tasks_mapping onnxA tfA [
      TaskSpec.plain "feature-extraction",
      TaskSpec.plain "depth-estimation"]
      [("onnx", "GlpnOnnxConfig")]),
  ("gpt2",
    supported_tasks_mapping onnxA tfA [
      TaskSpec.plain "feature-extraction",
      TaskSpec.plain "feature-extraction-with-past",
      TaskSpec.plain "text-generation",
      TaskSpec.plain "text-generation-with-past",
      TaskSpec.plain "text-classification",
      TaskSpec.plain "token-classification"]
      [("onnx", "GPT2OnnxConfig")]),
  ("gpt-bigcode",
    supported_tasks_mapping onnxA tfA [
      TaskSpec.plain "feature-extraction",
      TaskSpec.plain "feature-extraction-with-past",
      TaskSpec.plain "text-generation",
      TaskSpec.plain "text-generation-with-past",
      TaskSpec.plain "text-classification",
      TaskSpec.plain "token-classification"]
      [("onnx", "GPTBigCodeOnnxConfig")]),
  ("gptj",
    supported_tasks_mapping onnxA tfA [
      TaskSpec.plain "feature-extraction",
      TaskSpec.plain "feature-extraction-with-past",
      TaskSpec.plain "text-generation",
      TaskSpec.plain "text-generation-with-past",
      TaskSpec.plain "question-answering",
      TaskSpec.plain "text-classification"]
      [("onnx", "GPTJOnnxConfig")]),
  ("gpt-neo",
    supported_tasks_mapping onnxA tfA [
      TaskSpec.plain "feature-extraction",
      TaskSpec.plain "feature-extraction-with-past",
      TaskSpec.plain "text-generation",
      TaskSpec.plain "text-generation-with-past",
      TaskSpec.plain "text-classification"]
      [("onnx", "GPTNeoOnnxConfig")]),
  ("gpt-neox",
    supported_tasks_mapping onnxA tfA [
      TaskSpec.plain "feature-extraction",
      TaskSpec.plain "feature-extraction-with-past",
      TaskSpec.plain "text-generation",
      TaskSpec.plain "text-generation-with-past",
      TaskSpec.plain "text-classification"]
      [("onnx", "GPTNeoXOnnxConfig")]),
  ("groupvit",
    supported_tasks_mapping onnxA tfA [
      TaskSpec.plain "feature-extraction"]
      [("onnx", "GroupViTOnnxConfig")]),
  ("hubert",
    supported_tasks_mapping onnxA tfA [
      TaskSpec.plain "feature-extraction",
      TaskSpec.plain "automatic-speech-recognition",
      TaskSpec.plain "audio-classification"]
      [("onnx", "HubertOnnxConfig")]),
  ("ibert",
    supported_tasks_mapping onnxA tfA [
      TaskSpec.plain "feature-extraction",
      TaskSpec.plain "fill-mask",
      TaskSpec.plain "text-classification",
      TaskSpec.plain "multiple-choice",
      TaskSpec.plain "token-classification",
      TaskSpec.plain "question-answering"]
      [("onnx", "IBertOnnxConfig")]),
  ("imagegpt",
    supported_tasks_mapping onnxA tfA [
      TaskSpec.plain "feature-extraction",
      TaskSpec.plain "image-classification"]
      [("onnx", "ImageGPTOnnxConfig")]),
  ("layoutlm",
    supported_tasks_mapping onnxA tfA [
      TaskSpec.plain "feature-extraction",
      TaskSpec.plain "fill-mask",
      TaskSpec.plain "text-classification",
      TaskSpec.plain "token-classification"]
      [("onnx", "LayoutLMOnnxConfig")]),
  ("layoutlmv3",
    supported_tasks_mapping onnxA tfA [
      TaskSpec.plain "feature-extraction",
      TaskSpec.plain "question-answering",
      TaskSpec.plain "text-classification",
      TaskSpec.plain "token-classification"]
      [("onnx", "LayoutLMv3OnnxConfig")]),
  ("lilt",
    supported_tasks_mapping onnxA tfA [
      TaskSpec.plain "feature-extraction",
      TaskSpec.plain "question-answering",
      TaskSpec.plain "text-classification",
      TaskSpec.plain "token-classification"]
      [("onnx", "LiltOnnxConfig")]),
  ("levit",
    supported_tasks_mapping onnxA tfA [
      TaskSpec.plain "feature-extraction",
      TaskSpec.plain "image-classification"]
      [("onnx", "LevitOnnxConfig")]),
  ("longt5",
    supported_tasks_mapping onnxA tfA [
      TaskSpec.plain "feature-extraction",
      TaskSpec.plain "feature-extraction-with-past",
      TaskSpec.plain "text2text-generation",
      TaskSpec.plain "text2text-generation-with-past"]
      [("onnx", "LongT5OnnxConfig")]),
  ("marian",
    supported_tasks_mapping onnxA tfA [
      TaskSpec.plain "feature-extraction",
      TaskSpec.plain "feature-extraction-with-past",
      TaskSpec.plain "text2text-generation",
      TaskSpec.plain "text2text-generation-with-past",
      TaskSpec.plain "text-generation",
      TaskSpec.plain "text-generation-with-past"]
      [("onnx", "MarianOnnxConfig")]),
  ("markuplm",
    supported_tasks_mapping onnxA tfA [
      TaskSpec.plain "feature-extraction",
      TaskSpec.plain "text-classification",
      TaskSpec.plain "token-classification",
      TaskSpec.plain "question-answering"]
      [("onnx", "MarkupLMOnnxConfig")]),
  ("mbart",
    supported_tasks_mapping onnxA tfA [
      TaskSpec.plain "feature-extraction",
      TaskSpec.plain "feature-extraction-with-past",
      TaskSpec.plain "text-generation",
      TaskSpec.plain "text-generation-with-past",
      TaskSpec.plain "text2text-generation",
      TaskSpec.plain "text2text-generation-with-past",
      TaskSpec.plain "text-classification",
      TaskSpec.plain "question-answering"]
      [("onnx", "MBartOnnxConfig")]),
  ("mistral",
    supported_tasks_mapping onnxA tfA [
      TaskSpec.plain "feature-extraction",
      TaskSpec.plain "feature-extraction-with-past",
      TaskSpec.plain "text-generation",
      TaskSpec.plain "text-generation-with-past",
      TaskSpec.plain "text-classification"]
      [("onnx", "MistralOnnxConfig")]),
  ("mobilebert",
    supported_tasks_mapping onnxA tfA [
      TaskSpec.plain "feature-extraction",
      TaskSpec.plain "fill-mask",
      TaskSpec.plain "text-classification",
      TaskSpec.plain "multiple-choice",
      TaskSpec.plain "token-classification",
      TaskSpec.plain "question-answering"]
      [("onnx", "MobileBertOnnxConfig"), ("tflite", "MobileBertTFLiteConfig")]),
  ("mobilevit",
    supported_tasks_mapping onnxA tfA [
      TaskSpec.plain "feature-extraction",
      TaskSpec.plain "image-classification",
      TaskSpec.plain "image-segmentation"]
      [("onnx", "MobileViTOnnxConfig")]),
  ("mobilenet-v1",
    supported_tasks_mapping onnxA tfA [
      TaskSpec.plain "feature-extraction",
      TaskSpec.plain "image-classification"]
      [("onnx", "MobileNetV1OnnxConfig")]),
  ("mobilenet-v2",
    supported_tasks_mapping onnxA tfA [
      TaskSpec.plain "feature-extraction",
      TaskSpec.plain "image-classification"]
      [("onnx", "MobileNetV2OnnxConfig")]),
  ("mpnet",
    supported_tasks_mapping onnxA tfA [
      TaskSpec.plain "feature-extraction",
      TaskSpec.plain "fill-mask",
      TaskSpec.plain "text-classification",
      TaskSpec.plain "multiple-choice",
      TaskSpec.plain "token-classification",
      TaskSpec.plain "question-answering"]
      [("onnx", "MPNetOnnxConfig"), ("tflite", "MPNetTFLiteConfig")]),
  ("mpt",
    supported_tasks_mapping onnxA tfA [
      TaskSpec.plain "text-generation",
      TaskSpec.plain "text-generation-with-past",
      TaskSpec.plain "text-classification"]
      [("onnx", "MPTOnnxConfig")]),
  ("mt5",
    supported_tasks_mapping onnxA tfA [
      TaskSpec.plain "feature-extraction",
      TaskSpec.plain "feature-extraction-with-past",
      TaskSpec.plain "text2text-generation",
      TaskSpec.plain "text2text-generation-with-past"]
      [("onnx", "MT5OnnxConfig")]),
  ("musicgen",
    supported_tasks_mapping onnxA tfA [
      TaskSpec.plain "text-to-audio"]
      [("onnx", "MusicgenOnnxConfig")]),
  ("m2m-100",
    supported_tasks_mapping onnxA tfA [
      TaskSpec.plain "feature-extraction",
      TaskSpec.plain "feature-extraction-with-past",
      TaskSpec.plain "text2text-generation",
      TaskSpec.plain "text2text-generation-with-past"]
      [("onnx", "M2M100OnnxConfig")]),
  ("nystromformer",
    supported_tasks_mapping onnxA tfA [
      TaskSpec.plain "feature-extraction",
      TaskSpec.plain "fill-mask",
      TaskSpec.plain "multiple-choice",
      TaskSpec.plain "question-answering",
      TaskSpec.plain "text-classification",
      TaskSpec.plain "token-classification"]
      [("onnx", "NystromformerOnnxConfig")]),
  ("owlv2",
    supported_tasks_mapping onnxA tfA [
      TaskSpec.plain "feature-extraction",
      TaskSpec.plain "zero-shot-object-detection"]
      [("onnx", "OwlV2OnnxConfig")]),
  ("owlvit",
    supported_tasks_mapping onnxA tfA [
      TaskSpec.plain "feature-extraction",
      TaskSpec.plain "zero-shot-object-detection"]
      [("onnx", "OwlViTOnnxConfig")]),
  ("opt",
    supported_tasks_mapping onnxA tfA [
      TaskSpec.plain "feature-extraction",
      TaskSpec.plain "feature-extraction-with-past",
      TaskSpec.plain "text-generation",
      TaskSpec.plain "text-generation-with-past",
      TaskSpec.plain "question-answering",
      TaskSpec.plain "text-classification"]
      [("onnx", "OPTOnnxConfig")]),
  ("qwen2",
    supported_tasks_mapping onnxA tfA [
      TaskSpec.plain "feature-extraction",
      TaskSpec.plain "feature-extraction-with-past",
      TaskSpec.plain "text-generation",
      TaskSpec.plain "text-generation-with-past",
      TaskSpec.plain "text-classification"]
      [("onnx", "Qwen2OnnxConfig")]),
  ("llama",
    supported_tasks_mapping onnxA tfA [
      TaskSpec.plain "feature-extraction",
      TaskSpec.plain "feature-extraction-with-past",
      TaskSpec.plain "text-generation",
      TaskSpec.plain "text-generation-with-past",
      TaskSpec.plain "text-classification"]
      [("onnx", "LlamaOnnxConfig")]),
  ("pegasus",
    supported_tasks_mapping onnxA tfA [
      TaskSpec.plain "feature-extraction",
      TaskSpec.plain "feature-extraction-with-past",
      TaskSpec.plain "text-generation",
      TaskSpec.plain "text-generation-with-past",
      TaskSpec.plain "text2text-generation",
      TaskSpec.plain "text2text-generation-with-past"]
      [("onnx", "PegasusOnnxConfig")]),
  ("perceiver",
    supported_tasks_mapping onnxA tfA [
      TaskSpec.plain "fill-mask",
      TaskSpec.plain "image-classification",
      TaskSpec.plain "text-classification"]
      [("onnx", "PerceiverOnnxConfig")]),
  ("phi",
    supported_tasks_mapping onnxA tfA [
      TaskSpec.plain "feature-extraction",
      TaskSpec.plain "feature-extraction-with-past",
      TaskSpec.plain "text-generation",
      TaskSpec.plain "text-generation-with-past",
      TaskSpec.plain "text-classification"]
      [("onnx", "PhiOnnxConfig")]),
  ("pix2struct",
    supported_tasks_mapping onnxA tfA [
      TaskSpec.plain "image-to-text",
      TaskSpec.plain "image-to-text-with-past",
      TaskSpec.plain "visual-question-answering",
      TaskSpec.plain "visual-question-answering-with-past"]
      [("onnx", "Pix2StructOnnxConfig")]),
  ("poolformer",
    supported_tasks_mapping onnxA tfA [
      TaskSpec.plain "feature-extraction",
      TaskSpec.plain "image-classification"]
      [("onnx", "PoolFormerOnnxConfig")]),
  ("regnet",
    supported_tasks_mapping onnxA tfA [
      TaskSpec.plain "feature-extraction",
      TaskSpec.plain "image-classification"]
      [("onnx", "RegNetOnnxConfig")]),
  ("resnet",
    supported_tasks_mapping onnxA tfA [
      TaskSpec.plain "feature-extraction",
      TaskSpec.plain "image-classification"]
      [("onnx", "ResNetOnnxConfig"), ("tflite", "ResNetTFLiteConfig")]),
  ("roberta",
    supported_tasks_mapping onnxA tfA [
      TaskSpec.plain "feature-extraction",
      TaskSpec.plain "fill-mask",
      TaskSpec.plain "text-classification",
      TaskSpec.plain "multiple-choice",
      TaskSpec.plain "token-classification",
      TaskSpec.plain "question-answering"]
      [("onnx", "RobertaOnnxConfig"), ("tflite", "RobertaTFLiteConfig")]),
  ("roformer",
    supported_tasks_mapping onnxA tfA [
      TaskSpec.plain "feature-extraction",
      TaskSpec.plain "fill-mask",
      TaskSpec.plain "text-classification",
      TaskSpec.plain "token-classification",
      TaskSpec.plain "multiple-choice",
      TaskSpec.plain "question-answering",
      TaskSpec.plain "token-classification"]
      [("onnx", "RoFormerOnnxConfig"), ("tflite", "RoFormerTFLiteConfig")]),
  ("sam",
    supported_tasks_mapping onnxA tfA [
      TaskSpec.plain "feature-extraction"]
      [("onnx", "SamOnnxConfig")]),
  ("segformer",
    supported_tasks_mapping onnxA tfA [
      TaskSpec.plain "feature-extraction",
      TaskSpec.plain "image-classification",
      TaskSpec.plain "image-segmentation",
      TaskSpec.plain "semantic-segmentation"]
      [("onnx", "SegformerOnnxConfig")]),
  ("sew",
    supported_tasks_mapping onnxA tfA [
      TaskSpec.plain "feature-extraction",
      TaskSpec.plain "automatic-speech-recognition",
      TaskSpec.plain "audio-classification"]
      [("onnx", "SEWOnnxConfig")]),
  ("sew-d",
    supported_tasks_mapping onnxA tfA [
      TaskSpec.plain "feature-extraction",
      TaskSpec.plain "automatic-speech-recognition",
      TaskSpec.plain "audio-classification"]
      [("onnx", "SEWDOnnxConfig")]),
  ("speech-to-text",
    supported_tasks_mapping onnxA tfA [
      TaskSpec.plain "feature-extraction",
      TaskSpec.plain "feature-extraction-with-past",
      TaskSpec.plain "automatic-speech-recognition",
      TaskSpec.plain "automatic-speech-recognition-with-past"]
      [("onnx", "Speech2TextOnnxConfig")]),
  ("speecht5",
    supported_tasks_mapping onnxA tfA [
      TaskSpec.plain "text-to-audio"]
      [("onnx", "SpeechT5OnnxConfig")]),
  ("splinter",
    supported_tasks_mapping onnxA tfA [
      TaskSpec.plain "feature-extraction",
      TaskSpec.plain "question-answering"]
      [("onnx", "SplinterOnnxConfig")]),
  ("squeezebert",
    supported_tasks_mapping onnxA tfA [
      TaskSpec.plain "feature-extraction",
      TaskSpec.plain "fill-mask",
      TaskSpec.plain "text-classification",
      TaskSpec.plain "multiple-choice",
      TaskSpec.plain "token-classification",
      TaskSpec.plain "question-answering"]
      [("onnx", "SqueezeBertOnnxConfig")]),
  ("swin",
    supported_tasks_mapping onnxA tfA [
      TaskSpec.plain "feature-extraction",
      TaskSpec.plain "image-classification",
      TaskSpec.plain "masked-im"]
      [("onnx", "SwinOnnxConfig")]),
  ("swin2sr",
    supported_tasks_mapping onnxA tfA [
      TaskSpec.plain "feature-extraction",
      TaskSpec.plain "image-to-image"]
      [("onnx", "Swin2srOnnxConfig")]),
  ("t5",
    supported_tasks_mapping onnxA tfA [
      TaskSpec.plain "feature-extraction",
      TaskSpec.plain "feature-extraction-with-past",
      TaskSpec.plain "text2text-generation",
      TaskSpec.plain "text2text-generation-with-past"]
      [("onnx", "T5OnnxConfig")]),
  ("table-transformer",
    supported_tasks_mapping onnxA tfA [
      TaskSpec.plain "feature-extraction",
      TaskSpec.plain "object-detection"]
      [("onnx", "TableTransformerOnnxConfig")]),
  ("trocr",
    supported_tasks_mapping onnxA tfA [
      TaskSpec.plain "feature-extraction",
      TaskSpec.plain "feature-extraction-with-past",
      TaskSpec.plain "image-to-text",
      TaskSpec.plain "image-to-text-with-past"]
      [("onnx", "TrOCROnnxConfig")]),
  ("unispeech",
    supported_tasks_mapping onnxA tfA [
      TaskSpec.plain "feature-extraction",
      TaskSpec.plain "automatic-speech-recognition",
      TaskSpec.plain "audio-classification"]
      [("onnx", "UniSpeechOnnxConfig")]),
  ("unispeech-sat",
    supported_tasks_mapping onnxA tfA [
      TaskSpec.plain "feature-extraction",
      TaskSpec.plain "automatic-speech-recognition",
      TaskSpec.plain "audio-classification",
      TaskSpec.plain "audio-frame-classification",
      TaskSpec.plain "audio-xvector"]
      [("onnx", "UniSpeechSATOnnxConfig")]),
  ("vision-encoder-decoder",
    supported_tasks_mapping onnxA tfA [
      TaskSpec.plain "image-to-text",
      TaskSpec.plain "image-to-text-with-past",
      TaskSpec.plain "document-question-answering",
      TaskSpec.plain "document-question-answering-with-past"]
      [("onnx", "VisionEncoderDecoderOnnxConfig")]),
  ("vit",
    supported_tasks_mapping onnxA tfA [
      TaskSpec.plain "feature-extraction",
      TaskSpec.plain "image-classification",
      TaskSpec.plain "masked-im"]
      [("onnx", "ViTOnnxConfig")]),
  ("wavlm",
    supported_tasks_mapping onnxA tfA [
      TaskSpec.plain "feature-extraction",
      TaskSpec.plain "automatic-speech-recognition",
      TaskSpec.plain "audio-classification",
      TaskSpec.plain "audio-frame-classification",
      TaskSpec.plain "audio-xvector"]
      [("onnx", "WavLMOnnxConfig")]),
  ("wav2vec2",
    supported_tasks_mapping onnxA tfA [
      TaskSpec.plain "feature-extraction",
      TaskSpec.plain "automatic-speech-recognition",
      TaskSpec.plain "audio-classification",
      TaskSpec.plain "audio-frame-classification",
      TaskSpec.plain "audio-xvector"]
      [("onnx", "Wav2Vec2OnnxConfig")]),
  ("wav2vec2-conformer",
    supported_tasks_mapping onnxA tfA [
      TaskSpec.plain "feature-extraction",
      TaskSpec.plain "automatic-speech-recognition",
      TaskSpec.plain "audio-classification",
      TaskSpec.plain "audio-frame-classification",
      TaskSpec.plain "audio-xvector"]
      [("onnx", "Wav2Vec2ConformerOnnxConfig")]),
  ("whisper",
    supported_tasks_mapping onnxA tfA [
      TaskSpec.plain "feature-extraction",
      TaskSpec.plain "feature-extraction-with-past",
      TaskSpec.plain "audio-classification",
      TaskSpec.plain "automatic-speech-recognition",
      TaskSpec.plain "automatic-speech-recognition-with-past"]
      [("onnx", "WhisperOnnxConfig")]),
  ("xlm",
    supported_tasks_mapping onnxA tfA [
      TaskSpec.plain "feature-extraction",
      TaskSpec.plain "fill-mask",
      TaskSpec.plain "text-classification",
      TaskSpec.plain "multiple-choice",
      TaskSpec.plain "token-classification",
      TaskSpec.plain "question-answering"]
      [("onnx", "XLMOnnxConfig"), ("tflite", "XLMTFLiteConfig")]),
  ("xlm-roberta",
    supported_tasks_mapping onnxA tfA [
      TaskSpec.plain "feature-extraction",
      TaskSpec.plain "fill-mask",
      TaskSpec.plain "text-classification",
      TaskSpec.plain "multiple-choice",
      TaskSpec.plain "token-classification",
      TaskSpec.plain "question-answering"]
      [("onnx", "XLMRobertaOnnxConfig"), ("tflite", "XLMRobertaTFLiteConfig")]),
  ("yolos",
    supported_tasks_mapping onnxA tfA [
      TaskSpec.plain "feature-extraction",
      TaskSpec.plain "object-detection"]
      [("onnx", "YolosOnnxConfig")])
]

/-- `_LIBRARY_TO_TASKS_TO_MODEL_LOADER_MAP` (tasks.py lines 150, 206-211):
filled only when PyTorch is available, `{}` otherwise. -/
def LIBRARY_TO_TASKS_TO_MODEL_LOADER_MAP (torchA : Bool) :
    List (String × List (String × LoaderSpec)) :=
  if torchA then
    [("diffusers", DIFFUSERS_TASKS_TO_MODEL_LOADERS),
     ("sentence_transformers", SENTENCE_TRANSFORMERS_TASKS_TO_MODEL_LOADERS),
     ("timm", TIMM_TASKS_TO_MODEL_LOADERS),
     ("transformers", TRANSFORMERS_TASKS_TO_MODEL_LOADERS)]
  else []

/-- `_LIBRARY_TO_TF_TASKS_TO_MODEL_LOADER_MAP` (tasks.py lines 154,
239-241): filled only when TensorFlow is available. -/
def LIBRARY_TO_TF_TASKS_TO_MODEL_LOADER_MAP (tfA : Bool) :
    List (String × List (String × LoaderSpec)) :=
  if tfA then [("transformers", TRANSFORMERS_TASKS_TO_TF_MODEL_LOADERS)] else []

/-- `_LIBRARY_TO_SUPPORTED_MODEL_TYPES` (tasks.py lines 1111-1116): the
initial state of the mutable registry. -/
def LIBRARY_TO_SUPPORTED_MODEL_TYPES (onnxA tfA : Bool) : Registry :=
  [("diffusers", DIFFUSERS_SUPPORTED_MODEL_TYPE onnxA tfA),
   ("sentence_transformers", SENTENCE_TRANSFORMERS_SUPPORTED_MODEL_TYPE onnxA tfA),
   ("timm", TIMM_SUPPORTED_MODEL_TYPE onnxA tfA),
   ("transformers", SUPPORTED_MODEL_TYPE onnxA tfA)]

/-! ## Task vocabulary and synonyms -/

/-- `TasksManager.get_all_tasks` (tasks.py lines 1839-1859): keys of the
per-library loader maps, deduplicated (`list(set(tasks))`). -/
def get_all_tasks (torchA tfA : Bool) : List String :=
  let mapping := if torchA then LIBRARY_TO_TASKS_TO_MODEL_LOADER_MAP torchA
                 else LIBRARY_TO_TF_TASKS_TO_MODEL_LOADER_MAP tfA
  dedupFirst ((mapping.map (fun p => dictKeys p.2)).flatten) []

/-- `TasksManager.map_from_synonym` (tasks.py lines 1271-1275). -/
def map_from_synonym (task : String) : String :=
  match dictGet SYNONYM_TASK_MAP task with
  | some t => t
  | none => task

/-- `TasksManager.synonyms_for_task` (tasks.py lines 1260-1269): keys of
the synonym map whose value is `task` or `map_from_synonym task`, as a set
(first-occurrence order; the Python `set` iteration order is unspecified),
minus `task` itself. -/
def synonyms_for_task (task : String) : List String :=
  let synonyms := (SYNONYM_TASK_MAP.filter (fun p => p.2 == task)).map (·.1)
    ++ (SYNONYM_TASK_MAP.filter (fun p => p.2 == map_from_synonym task)).map (·.1)
  (dedupFirst synonyms []).filter (fun s => s != task)

/-! ## Registration (`TasksManager.create_register`, tasks.py lines 1132-1185) -/

/-- The `for task in supported_tasks` loop of the decorator body
(tasks.py lines 1169-1178), acting on the local `mapping_backend` dict.
On an exception it returns the dict as mutated so far, so that the
aliasing analysis in `create_register` can reconstruct the partial state
the Python code leaves behind. -/
def register_loop (torchA tfA : Bool) (overwrite_existing : Bool) (config_cls : ConfigCls) :
    List String → TaskDict → TaskDict × Option RegError
  | [], mapping_backend => (mapping_backend, none)
  | task :: rest, mapping_backend =>
    let normalized_task := pyReplace task "-with-past" ""
    if !(get_all_tasks torchA tfA).contains normalized_task then
      (mapping_backend, some (.unknownTask normalized_task (get_all_tasks torchA tfA)))
    else if !overwrite_existing && (dictGet mapping_backend task).isSome then
      register_loop torchA tfA overwrite_existing config_cls rest mapping_backend
    else
      match make_backend_config_constructor_for_task config_cls task with
      | .error e => (mapping_backend, some e)
      | .ok c =>
        register_loop torchA tfA overwrite_existing config_cls rest
          (dictInsert mapping_backend task c)

/-- Full application of the decorator produced by
`TasksManager.create_register(backend, overwrite_existing)` to
`(model_type, *supported_tasks, library_name)` and then to `config_cls`
(tasks.py lines 1132-1185).  Returns the post-state of the registry
together with the raised exception, if any.

Python aliasing: `mapping = table.get(model_type, {})` and
`mapping_backend = mapping.get(backend, {})` alias the live table entries
exactly when the keys are present, so mutations performed inside the loop
are visible in the registry even when the loop raises; otherwise the loop
works on fresh dicts that are only linked into the registry by the two
assignments after the loop (lines 1179-1180), which an exception skips. -/
def create_register (torchA tfA : Bool) (registry : Registry) (backend : String)
    (overwrite_existing : Bool) (model_type : String) (supported_tasks : List String)
    (library_name : String) (config_cls : ConfigCls) : Registry × Option RegError :=
  match dictGet registry library_name with
  | none => (registry, some (.unknownLibrary library_name))
  | some supported_model_type_for_library =>
    let mapping := (dictGet supported_model_type_for_library model_type).getD []
    let mapping_backend := (dictGet mapping backend).getD []
    let deepAlias := (dictGet supported_model_type_for_library model_type).isSome
                     && (dictGet mapping backend).isSome
    match register_loop torchA tfA overwrite_existing config_cls supported_tasks mapping_backend with
    | (mb, some e) =>
      if deepAlias then
        (dictInsert registry library_name
          (dictInsert supported_model_type_for_library model_type
            (dictInsert mapping backend mb)), some e)
      else (registry, some e)
    | (mb, none) =>
      (dictInsert registry library_name
        (dictInsert supported_model_type_for_library model_type
          (dictInsert mapping backend mb)), none)

/-- The nested lookup `registry[library][model_type][backend][task]`,
`none` when any level is missing.  Used to state what a registration has
or has not stored. -/
def registryLookup (registry : Registry) (library model_type backend task : String) :
    Option ExportConfigConstructor :=
  match dictGet registry library with
  | none => none
  | some table =>
    match dictGet table model_type with
    | none => none
    | some mapping =>
      match dictGet mapping backend with
      | none => none
      | some mb => dictGet mb task

/-! ## Lookup (`get_supported_tasks_for_model_type`,
`get_exporter_config_constructor`, tasks.py lines 1187-1247, 1995-2082) -/

/-- The exceptions of the lookup path, carrying the data their Python
messages are built from. -/
inductive LookupError where
  | unknownLibrary (library : String)
  | modelTypeNotSupported (modelTypeAndName : String) (library : String)
      (supported : List String)
  | exporterNotSupported (modelTypeAndName : String) (exporter : String)
      (supported : List String)
  | missingModelAndModelType
  | taskNotSupported (modelType : String) (task : String) (exporter : String)
      (supportedTasks : List String)
  | noDefaultModelType (library : String)
  | keyErrorAtFinalLookup
deriving DecidableEq, Repr

/-- `{**DIFFUSERS, **TIMM, **SENTENCE_TRANSFORMERS, **TRANSFORMERS}`
(tasks.py lines 1214-1219 and 2033-2038), computed from the live registry
state.  The four library keys always exist in the real program. -/
def mergedSupported (registry : Registry) : ModelTypeDict :=
  dictUpdate (dictUpdate (dictUpdate
    ((dictGet registry "diffusers").getD [])
    ((dictGet registry "timm").getD []))
    ((dictGet registry "sentence_transformers").getD []))
    ((dictGet registry "transformers").getD [])

/-- Body of `get_supported_tasks_for_model_type` after the library table
has been resolved (tasks.py lines 1224-1247). -/
def get_supported_tasks_core (supported_model_type_for_library : ModelTypeDict)
    (library_name model_type exporter : String) (model_name : Option String) :
    Except LookupError TaskDict :=
  let model_type := pyReplace (pyLower model_type) "_" "-"
  let model_type_and_model_name := match model_name with
    | some n => if n = "" then model_type else model_type ++ " (" ++ n ++ ")"
    | none => model_type
  let default_model_type := dictGet MODEL_TYPE_FOR_DEFAULT_CONFIG library_name
  let model_type2 : Except LookupError String :=
    if (dictGet supported_model_type_for_library model_type).isNone then
      match default_model_type with
      | some d => .ok d
      | none => .error (.modelTypeNotSupported model_type_and_model_name library_name
          (dictKeys supported_model_type_for_library))
    else .ok model_type
  match model_type2 with
  | .error e => .error e
  | .ok mt =>
    match dictGet supported_model_type_for_library mt with
    | none => .error .keyErrorAtFinalLookup
    | some backends =>
      match dictGet backends exporter with
      | none => .error (.exporterNotSupported model_type_and_model_name exporter
          (dictKeys backends))
      | some td => .ok td

/-- `TasksManager.get_supported_tasks_for_model_type` (tasks.py lines
1187-1247).  With `library_name = none` the deprecated merged-table path
is taken and the library defaults to "transformers". -/
def get_supported_tasks_for_model_type (registry : Registry) (model_type exporter : String)
    (model_name : Option String) (library_name : Option String) :
    Except LookupError TaskDict :=
  match library_name with
  | none =>
    get_supported_tasks_core (mergedSupported registry) "transformers" model_type exporter
      model_name
  | some lib =>
    match dictGet registry lib with
    | none => .error (.unknownLibrary lib)
    | some t => get_supported_tasks_core t lib model_type exporter model_name

/-- `TasksManager.get_exporter_config_constructor` (tasks.py lines
1995-2082), with the `model` argument fixed to `None` (every claim in
scope passes `model_type` explicitly; with `model = None` the
`model is None and model_type is None` validation reduces to a check on
`model_type`, and the config-derived model-type branch is dead) and
`exporter_config_kwargs` fixed to `None` (no partial application). -/
def get_exporter_config_constructor (registry : Registry) (exporter : String)
    (task : String) (model_type : Option String) (model_name : Option String)
    (library_name : Option String) : Except LookupError ExportConfigConstructor :=
  let resolved : Except LookupError (ModelTypeDict × String) :=
    match library_name with
    | none => .ok (mergedSupported registry, "transformers")
    | some lib =>
      match dictGet registry lib with
      | none => .error (.unknownLibrary lib)
      | some t => .ok (t, lib)
  match resolved with
  | .error e => .error e
  | .ok (supported_model_type_for_library, lib) =>
    match model_type with
    | none => .error .missingModelAndModelType
    | some model_type =>
      match get_supported_tasks_for_model_type registry model_type exporter model_name
          library_name with
      | .error e => .error e
      | .ok model_tasks =>
        let task := if (dictGet model_tasks task).isSome then task
          else match (synonyms_for_task task).find? (fun s => (dictGet model_tasks s).isSome) with
               | some s => s
               | none => task
        if (dictGet model_tasks task).isNone then
          .error (.taskNotSupported model_type task exporter (dictKeys model_tasks))
        else
          let mt2 : Except LookupError String :=
            if (dictGet supported_model_type_for_library model_type).isNone then
              match dictGet MODEL_TYPE_FOR_DEFAULT_CONFIG lib with
              | some d => .ok d
              | none => .error (.noDefaultModelType lib)
            else .ok model_type
          match mt2 with
          | .error e => .error e
          | .ok mt =>
            match dictGet supported_model_type_for_library mt with
            | none => .error .keyErrorAtFinalLookup
            | some backends =>
              match dictGet backends exporter with
              | none => .error .keyErrorAtFinalLookup
              | some td =>
                match dictGet td task with
                | none => .error .keyErrorAtFinalLookup
                | some c => .ok c

/-! ## Framework inference (`TasksManager.determine_framework`, tasks.py
lines 1438-1520) -/

/-- Modelled from the spec: the PyTorch weight-file name, imported by the
source from the external `transformers` collaborator (`WEIGHTS_NAME`); the
spec's scenarios name it as "pytorch_model.bin". -/
def WEIGHTS_NAME : String := "pytorch_model.bin"

/-- Modelled from the spec: the safe-serialization (safetensors) variant
of the PyTorch weight-file name (`SAFE_WEIGHTS_NAME` in `transformers`). -/
def SAFE_WEIGHTS_NAME : String := "model.safetensors"

/-- Modelled from the spec: the TensorFlow weight-file name
(`TF2_WEIGHTS_NAME` in `transformers`); the spec's scenarios name it as
"tf_model.h5". -/
def TF2_WEIGHTS_NAME : String := "tf_model.h5"

/-- Modelled from the spec: the standard model-config file name
(`CONFIG_NAME` from this repository's `optimum/utils`, not under `src/`),
"config.json". -/
def CONFIG_NAME : String := "config.json"

/-- Characters after the last '.', if any: helper for `pathSuffix`. -/
def suffixAfterLastDot : List Char → Option (List Char)
  | [] => none
  | c :: rest =>
    match suffixAfterLastDot rest with
    | some r => some r
    | none => if c = '.' then some rest else none

/-- Embedding of Python `Path(name).suffix` for the plain file names used
by `determine_framework` (no directory separators, no leading dot). -/
def pathSuffix (name : String) : String :=
  match suffixAfterLastDot name.data with
  | some ext => if ext.isEmpty then "" else "." ++ String.mk ext
  | none => ""

/-- Embedding of Python `Path(name).stem` for the same file names. -/
def pathStem (name : String) : String :=
  String.mk (name.data.take (name.data.length - (pathSuffix name).data.length))

/-- The per-file PyTorch weight-pattern test of `determine_framework`
(tasks.py lines 1473-1481). -/
def is_pt_weight_file (file : String) : Bool :=
  (pyStartsWith file (pathStem WEIGHTS_NAME) && pyEndsWith file (pathSuffix WEIGHTS_NAME))
  || (pyStartsWith file (pathStem SAFE_WEIGHTS_NAME)
      && pyEndsWith file (pathSuffix SAFE_WEIGHTS_NAME))

/-- The per-file TensorFlow weight-pattern test of `determine_framework`
(tasks.py lines 1483-1485). -/
def is_tf_weight_file (file : String) : Bool :=
  pyStartsWith file (pathStem TF2_WEIGHTS_NAME) && pyEndsWith file (pathSuffix TF2_WEIGHTS_NAME)

/-- The exceptions `determine_framework` can raise. -/
inductive FrameworkError where
  | connectionError (detail : String)
  | fileNotFound
  | environmentError
deriving DecidableEq, Repr

/-- `TasksManager.determine_framework` (tasks.py lines 1438-1520),
parameterised on the runtime availability of PyTorch/TensorFlow and on
the output of the `get_model_files` collaborator (the repository file
list and the request exception it caught, if any). -/
def determine_framework (torchA tfA : Bool) (all_files : List String)
    (request_exception : Option String) (framework : Option String) :
    Except FrameworkError String :=
  match framework with
  | some f => .ok f
  | none =>
    let fw : Except FrameworkError String :=
      if all_files.any is_pt_weight_file then .ok "pt"
      else if all_files.any is_tf_weight_file then .ok "tf"
      else if all_files.contains "model_index.json"
          && all_files.any (fun file =>
              pyEndsWith file (pathSuffix WEIGHTS_NAME)
              || pyEndsWith file (pathSuffix SAFE_WEIGHTS_NAME)) then
        .ok "pt"
      else if all_files.contains "config_sentence_transformers.json" then
        .ok "pt"
      else
        match request_exception with
        | some e => .error (.connectionError e)
        | none => .error .fileNotFound
    match fw with
    | .error e => .error e
    | .ok f =>
      if torchA then .ok (if f = "" then "pt" else f)
      else if tfA then .ok (if f = "" then "tf" else f)
      else .error .environmentError

/-! ## Library inference (`TasksManager.infer_library_from_model`,
tasks.py lines 1700-1785) -/

/-- `TasksManager.infer_library_from_model` (tasks.py lines 1746-1785),
parameterised on the output of the `get_model_files` collaborator and on
the two attribute probes of the parsed config
(`hasattr(model_config, "pretrained_cfg") or hasattr(model_config,
"architecture")` and `hasattr(model_config, "_diffusers_version")`),
which are only consulted in the `CONFIG_NAME` branch.  Returns
`Except String String`: the error is the final "library name could not
be automatically inferred" guard (tasks.py lines 1780-1783). -/
def infer_library_from_model (all_files : List String)
    (configHasTimmFields configHasDiffusersVersion : Bool)
    (library_name : Option String) : Except String String :=
  match library_name with
  | some lib => .ok lib
  | none =>
    let inferred : Option String :=
      if all_files.contains "model_index.json" then
        some "diffusers"
      else if all_files.any (fun file_path => pyStartsWith file_path "sentence_")
          || all_files.contains "config_sentence_transformers.json" then
        some "sentence_transformers"
      else if all_files.contains CONFIG_NAME then
        if configHasTimmFields then some "timm"
        else if configHasDiffusersVersion then some "diffusers"
        else some "transformers"
      else
        some "transformers"
    match inferred with
    | none => .error "The library name could not be automatically inferred."
    | some lib => .ok lib

/-! ## Lemmas about registration -/

theorem dictGet_value_mem {α : Type} (d : List (String × α)) (k : String) (v : α)
    (h : dictGet d k = some v) : v ∈ d.map Prod.snd := by
  induction d with
  | nil => simp [dictGet] at h
  | cons hd tl ih =>
    obtain ⟨k', w⟩ := hd
    by_cases hk : k = k'
    · simp [dictGet, hk] at h
      simp [h]
    · simp [dictGet, hk] at h
      simp [ih h]

theorem register_loop_mono (torchA tfA ow : Bool) (cfg : ConfigCls) (tasks : List String)
    (mb : TaskDict) (t : String) (h : (dictGet mb t).isSome = true) :
    (dictGet (register_loop torchA tfA ow cfg tasks mb).1 t).isSome = true := by
  induction tasks generalizing mb with
  | nil => simpa [register_loop] using h
  | cons task rest ih =>
    simp only [register_loop]
    split
    · simpa using h
    · split
      · exact ih mb h
      · split
        · simpa using h
        · apply ih
          rw [dictGet_dictInsert]
          split
          · simp
          · exact h

theorem register_loop_mem (torchA tfA ow : Bool) (cfg : ConfigCls) (t : String)
    (mb' : TaskDict) :
    ∀ (tasks : List String) (mb : TaskDict), t ∈ tasks →
      register_loop torchA tfA ow cfg tasks mb = (mb', none) →
      (dictGet mb' t).isSome = true := by
  intro tasks
  induction tasks with
  | nil => intro mb ht; cases ht
  | cons task rest ih =>
    intro mb ht h
    simp only [register_loop] at h
    rcases List.mem_cons.mp ht with rfl | hmem
    · split at h
      · cases h
      · split at h
        · rename_i hcond
          have hs : (dictGet mb t).isSome = true := by
            cases hiso : (dictGet mb t).isSome
            · simp [hiso] at hcond
            · rfl
          have := register_loop_mono torchA tfA ow cfg rest mb t hs
          rw [h] at this
          exact this
        · split at h
          · cases h
          · rename_i c hc
            have hins : (dictGet (dictInsert mb t c) t).isSome = true := by
              rw [dictGet_dictInsert]; simp
            have := register_loop_mono torchA tfA ow cfg rest (dictInsert mb t c) t hins
            rw [h] at this
            exact this
    · split at h
      · cases h
      · split at h
        · exact ih mb hmem h
        · split at h
          · cases h
          · exact ih _ hmem h

/-- Decomposition of a successful `create_register` call: the library must
exist, the loop must succeed, and the post-state is the registry with the
final `mapping_backend` linked in. -/
theorem create_register_success_state (torchA tfA ow : Bool) (reg : Registry)
    (backend model_type lib : String) (tasks : List String) (cfg : ConfigCls)
    (reg' : Registry)
    (h : create_register torchA tfA reg backend ow model_type tasks lib cfg = (reg', none)) :
    ∃ table mb',
      dictGet reg lib = some table ∧
      register_loop torchA tfA ow cfg tasks
        ((dictGet ((dictGet table model_type).getD []) backend).getD []) = (mb', none) ∧
      reg' = dictInsert reg lib (dictInsert table model_type
        (dictInsert ((dictGet table model_type).getD []) backend mb')) := by
  unfold create_register at h
  cases hlib : dictGet reg lib with
  | none => rw [hlib] at h; cases h
  | some table =>
    rw [hlib] at h
    simp only at h
    cases hloop : register_loop torchA tfA ow cfg tasks
        ((dictGet ((dictGet table model_type).getD []) backend).getD []) with
    | mk mb e =>
      rw [hloop] at h
      cases e with
      | some err =>
        simp only at h
        split at h <;> cases h
      | none =>
        simp only at h
        obtain ⟨h1, _⟩ := Prod.mk.injEq .. ▸ h
        exact ⟨table, mb, rfl, hloop, h1.symm⟩

/-! ## Claim C1 -/

/-- C1 (amended): for every (library, model_type, task, backend)
successfully registered through the decorator produced by
`create_register(backend)`, *provided the registered model_type is already
in normalized form* (equal to its lowercased, underscore-to-hyphen image,
as `get_supported_tasks_for_model_type` normalizes its argument while the
decorator stores the raw key), a subsequent
`get_exporter_config_constructor(backend, model_type=model_type,
task=task, library_name=library)` returns a constructor and does not
raise. -/
theorem registered_task_lookup_succeeds (torchA tfA ow : Bool) (reg : Registry)
    (backend model_type lib task : String) (tasks : List String) (cfg : ConfigCls)
    (model_name : Option String)
    (hnorm : pyReplace (pyLower model_type) "_" "-" = model_type)
    (hreg : (create_register torchA tfA reg backend ow model_type tasks lib cfg).2 = none)
    (htask : task ∈ tasks) :
    ∃ c, get_exporter_config_constructor
        (create_register torchA tfA reg backend ow model_type tasks lib cfg).1
        backend task (some model_type) model_name (some lib) = .ok c := by
  have hpair : create_register torchA tfA reg backend ow model_type tasks lib cfg
      = ((create_register torchA tfA reg backend ow model_type tasks lib cfg).1, none) := by
    rw [← hreg]
  obtain ⟨table, mb', hlib, hloop, hpost⟩ :=
    create_register_success_state torchA tfA ow reg backend model_type lib tasks cfg _ hpair
  have htask' : (dictGet mb' task).isSome = true :=
    register_loop_mem torchA tfA ow cfg task mb' tasks _ htask hloop
  obtain ⟨c, hc⟩ := Option.isSome_iff_exists.mp htask'
  refine ⟨c, ?_⟩
  have h1 : dictGet (create_register torchA tfA reg backend ow model_type tasks lib cfg).1 lib
      = some (dictInsert table model_type
          (dictInsert ((dictGet table model_type).getD []) backend mb')) := by
    rw [hpost, dictGet_dictInsert]
    simp
  simp only [get_exporter_config_constructor, get_supported_tasks_for_model_type,
    get_supported_tasks_core, h1, hnorm, dictGet_dictInsert, if_pos rfl, hc]
  simp [dictGet_dictInsert, hc]

/-! ## Claim C2 -/

/-- C2: `map_from_synonym` is idempotent: no value of the synonym map is
itself a key of the synonym map, so applying the function twice equals
applying it once, for every task string. -/
theorem map_from_synonym_idempotent (t : String) :
    map_from_synonym (map_from_synonym t) = map_from_synonym t := by
  unfold map_from_synonym
  cases h : dictGet SYNONYM_TASK_MAP t with
  | none => rw [h]
  | some v =>
    have hmem := dictGet_value_mem SYNONYM_TASK_MAP t v h
    have hvals : ∀ v ∈ SYNONYM_TASK_MAP.map Prod.snd, dictGet SYNONYM_TASK_MAP v = none := by
      decide
    rw [hvals v hmem]

/-- Witness for C1 at a concrete input: a freshly registered
(normalized-form) model type is found again. -/
theorem registered_task_lookup_succeeds_witness :
    ∃ c, get_exporter_config_constructor
        (create_register true true (LIBRARY_TO_SUPPORTED_MODEL_TYPES true true) "onnx" false
          "my-model" ["feature-extraction"] "transformers" ⟨"MyOnnxConfig", false⟩).1
        "onnx" "feature-extraction" (some "my-model") none (some "transformers") = .ok c :=
  registered_task_lookup_succeeds true true false (LIBRARY_TO_SUPPORTED_MODEL_TYPES true true)
    "onnx" "my-model" "transformers" "feature-extraction" ["feature-extraction"]
    ⟨"MyOnnxConfig", false⟩ none (by decide) (by decide) (by decide)

/-- Counterexample to C1 as stated: registering model type
"custom_model" (with an underscore) for task "feature-extraction" under
the transformers library succeeds, yet the subsequent
`get_exporter_config_constructor` call raises, because the lookup
normalizes the model type to "custom-model" while the decorator stored
the raw key "custom_model". -/
theorem registered_task_lookup_succeeds_counterexample :
    (create_register true true (LIBRARY_TO_SUPPORTED_MODEL_TYPES true true) "onnx" false
      "custom_model" ["feature-extraction"] "transformers" ⟨"CustomOnnxConfig", false⟩).2 = none
    ∧ (get_exporter_config_constructor
        (create_register true true (LIBRARY_TO_SUPPORTED_MODEL_TYPES true true) "onnx" false
          "custom_model" ["feature-extraction"] "transformers" ⟨"CustomOnnxConfig", false⟩).1
        "onnx" "feature-extraction" (some "custom_model") none (some "transformers")).isOk
      = false :=
  ⟨by decide, by decide⟩

/-! ## Claim C3 -/

theorem registryLookup_none_elim (reg : Registry) (lib mt backend task : String)
    (table : ModelTypeDict) (hlib : dictGet reg lib = some table)
    (habsent : registryLookup reg lib mt backend task = none) :
    dictGet ((dictGet ((dictGet table mt).getD []) backend).getD []) task = none := by
  unfold registryLookup at habsent
  cases hmt : dictGet table mt with
  | none => simp [hmt, dictGet]
  | some mapping =>
    cases hbk : dictGet mapping backend with
    | none => simp [hmt, hbk, dictGet]
    | some mb =>
      simp only [hlib, hmt, hbk] at habsent
      simp [hmt, hbk, habsent]

/-- A successful one-task registration, written out: the constructor is
inserted at `registry[library][model_type][backend][task]`. -/
theorem create_register_single (torchA tfA ow : Bool) (reg : Registry)
    (lib mt backend task : String) (cfg : ConfigCls) (c : ExportConfigConstructor)
    (table : ModelTypeDict)
    (hlib : dictGet reg lib = some table)
    (hknown : (get_all_tasks torchA tfA).contains (pyReplace task "-with-past" "") = true)
    (hmk : make_backend_config_constructor_for_task cfg task = .ok c)
    (habsent0 : dictGet ((dictGet ((dictGet table mt).getD []) backend).getD []) task = none) :
    create_register torchA tfA reg backend ow mt [task] lib cfg
      = (dictInsert reg lib (dictInsert table mt
          (dictInsert ((dictGet table mt).getD []) backend
            (dictInsert ((dictGet ((dictGet table mt).getD []) backend).getD []) task c))),
         none) := by
  have hmem : pyReplace task "-with-past" "" ∈ get_all_tasks torchA tfA :=
    List.elem_iff.mp hknown
  unfold create_register
  rw [hlib]
  simp [register_loop, hmem, hmk, habsent0]

/-- C3: registering the same (model_type, task, backend) triple twice with
`overwrite_existing=False` leaves the first-registered constructor in the
table; with `overwrite_existing=True` the second registration replaces the
first. -/
theorem create_register_overwrite_semantics (torchA tfA : Bool) (reg : Registry)
    (lib mt backend task : String) (cfg1 cfg2 : ConfigCls)
    (c1 c2 : ExportConfigConstructor) (table : ModelTypeDict)
    (hlib : dictGet reg lib = some table)
    (hknown : (get_all_tasks torchA tfA).contains (pyReplace task "-with-past" "") = true)
    (hmk1 : make_backend_config_constructor_for_task cfg1 task = .ok c1)
    (hmk2 : make_backend_config_constructor_for_task cfg2 task = .ok c2)
    (habsent : registryLookup reg lib mt backend task = none) :
    registryLookup (create_register torchA tfA
        (create_register torchA tfA reg backend false mt [task] lib cfg1).1
        backend false mt [task] lib cfg2).1 lib mt backend task = some c1
    ∧ registryLookup (create_register torchA tfA
        (create_register torchA tfA reg backend true mt [task] lib cfg1).1
        backend true mt [task] lib cfg2).1 lib mt backend task = some c2 := by
  have habsent0 := registryLookup_none_elim reg lib mt backend task table hlib habsent
  have hmem : pyReplace task "-with-past" "" ∈ get_all_tasks torchA tfA :=
    List.elem_iff.mp hknown
  constructor
  · rw [create_register_single torchA tfA false reg lib mt backend task cfg1 c1 table hlib
      hknown hmk1 habsent0]
    unfold create_register registryLookup
    simp [register_loop, hmem, dictGet_dictInsert]
  · rw [create_register_single torchA tfA true reg lib mt backend task cfg1 c1 table hlib
      hknown hmk1 habsent0]
    unfold create_register registryLookup
    simp [register_loop, hmem, hmk2, dictGet_dictInsert]

/-- Witness for C3 at a concrete input: double registration of
("bert", "text-generation", "onnx"), skip vs. overwrite. -/
theorem create_register_overwrite_semantics_witness :
    registryLookup (create_register true true
        (create_register true true (LIBRARY_TO_SUPPORTED_MODEL_TYPES true true) "onnx" false
          "bert" ["text-generation"] "transformers" ⟨"CfgA", false⟩).1
        "onnx" false "bert" ["text-generation"] "transformers" ⟨"CfgB", false⟩).1
      "transformers" "bert" "onnx" "text-generation"
      = some ⟨⟨"CfgA", false⟩, "text-generation", false⟩
    ∧ registryLookup (create_register true true
        (create_register true true (LIBRARY_TO_SUPPORTED_MODEL_TYPES true true) "onnx" true
          "bert" ["text-generation"] "transformers" ⟨"CfgA", false⟩).1
        "onnx" true "bert" ["text-generation"] "transformers" ⟨"CfgB", false⟩).1
      "transformers" "bert" "onnx" "text-generation"
      = some ⟨⟨"CfgB", false⟩, "text-generation", false⟩ :=
  create_register_overwrite_semantics true true (LIBRARY_TO_SUPPORTED_MODEL_TYPES true true)
    "transformers" "bert" "onnx" "text-generation" ⟨"CfgA", false⟩ ⟨"CfgB", false⟩
    ⟨⟨"CfgA", false⟩, "text-generation", false⟩ ⟨⟨"CfgB", false⟩, "text-generation", false⟩
    (SUPPORTED_MODEL_TYPE true true) rfl (by decide) rfl rfl (by decide)

/-! ## Claim C4 -/

/-- C4: applying a create_register decorator with the single unknown task
"bogus-task" raises a ValueError carrying the known-task list
(`get_all_tasks`), and leaves the registry (in particular the table for
that (library, model_type, backend)) completely unchanged. -/
theorem create_register_bogus_task (torchA tfA ow : Bool) (reg : Registry)
    (lib model_type backend : String) (cfg : ConfigCls) (table : ModelTypeDict)
    (hlib : dictGet reg lib = some table) :
    create_register torchA tfA reg backend ow model_type ["bogus-task"] lib cfg
      = (reg, some (.unknownTask "bogus-task" (get_all_tasks torchA tfA))) := by
  have hb : "bogus-task" ∉ get_all_tasks torchA tfA := by
    cases torchA <;> cases tfA <;> decide
  have hrep : pyReplace "bogus-task" "-with-past" "" = "bogus-task" := by decide
  unfold create_register
  rw [hlib]
  simp only [register_loop, hrep]
  cases hmt : dictGet table model_type with
  | none => simp [hb, hmt]
  | some mapping =>
    cases hbk : dictGet mapping backend with
    | none => simp [hb, hmt, hbk]
    | some mb =>
      simp [hb, hmt, hbk, dictInsert_eq_self mapping backend mb hbk,
        dictInsert_eq_self table model_type mapping hmt, dictInsert_eq_self reg lib table hlib]

/-- Witness for C4 at a concrete input. -/
theorem create_register_bogus_task_witness :
    create_register true true (LIBRARY_TO_SUPPORTED_MODEL_TYPES true true) "onnx" false
      "bert" ["bogus-task"] "transformers" ⟨"CfgX", true⟩
      = (LIBRARY_TO_SUPPORTED_MODEL_TYPES true true,
         some (.unknownTask "bogus-task" (get_all_tasks true true))) :=
  create_register_bogus_task true true false (LIBRARY_TO_SUPPORTED_MODEL_TYPES true true)
    "transformers" "bert" "onnx" ⟨"CfgX", true⟩ (SUPPORTED_MODEL_TYPE true true) rfl

/-! ## Claim C10 -/

/-- C10: registration is not atomic across its task list.  When the
(model_type, backend) entry already exists in the library's table (so the
local dicts of the decorator alias the live table), a valid
not-yet-registered task that precedes an unknown task stays registered in
the table even though the decorator call raises the unknown-task
ValueError. -/
theorem create_register_not_atomic (torchA tfA ow : Bool) (reg : Registry)
    (lib mt backend t1 t2 : String) (cfg : ConfigCls) (c1 : ExportConfigConstructor)
    (table : ModelTypeDict) (mapping : BackendDict) (mb : TaskDict)
    (hlib : dictGet reg lib = some table)
    (hmt : dictGet table mt = some mapping)
    (hbk : dictGet mapping backend = some mb)
    (h1known : pyReplace t1 "-with-past" "" ∈ get_all_tasks torchA tfA)
    (h1absent : dictGet mb t1 = none)
    (hmk : make_backend_config_constructor_for_task cfg t1 = .ok c1)
    (h2bogus : pyReplace t2 "-with-past" "" ∉ get_all_tasks torchA tfA) :
    (create_register torchA tfA reg backend ow mt [t1, t2] lib cfg).2
      = some (.unknownTask (pyReplace t2 "-with-past" "") (get_all_tasks torchA tfA))
    ∧ registryLookup (create_register torchA tfA reg backend ow mt [t1, t2] lib cfg).1
        lib mt backend t1 = some c1 := by
  have hloop : register_loop torchA tfA ow cfg [t1, t2] mb
      = (dictInsert mb t1 c1,
         some (.unknownTask (pyReplace t2 "-with-past" "") (get_all_tasks torchA tfA))) := by
    simp [register_loop, h1known, h2bogus, h1absent, hmk]
  unfold create_register
  rw [hlib]
  simp only [hmt, hbk, Option.getD_some]
  rw [hloop]
  constructor
  · simp [hmt, hbk]
  · simp [hmt, hbk, registryLookup, dictGet_dictInsert]

/-- Witness for C10 at a concrete input: registering
("bert", ["text-generation", "bogus-task"], "onnx") on the initial
registry raises but leaves "text-generation" registered. -/
theorem create_register_not_atomic_witness :
    (create_register true true (LIBRARY_TO_SUPPORTED_MODEL_TYPES true true) "onnx" false
        "bert" ["text-generation", "bogus-task"] "transformers" ⟨"CfgX", false⟩).2
      = some (.unknownTask (pyReplace "bogus-task" "-with-past" "") (get_all_tasks true true))
    ∧ registryLookup (create_register true true (LIBRARY_TO_SUPPORTED_MODEL_TYPES true true)
        "onnx" false "bert" ["text-generation", "bogus-task"] "transformers" ⟨"CfgX", false⟩).1
        "transformers" "bert" "onnx" "text-generation"
      = some ⟨⟨"CfgX", false⟩, "text-generation", false⟩ :=
  create_register_not_atomic true true false (LIBRARY_TO_SUPPORTED_MODEL_TYPES true true)
    "transformers" "bert" "onnx" "text-generation" "bogus-task" ⟨"CfgX", false⟩
    ⟨⟨"CfgX", false⟩, "text-generation", false⟩ _ _ _ rfl rfl rfl (by decide) (by decide) rfl
    (by decide)

/-! ## Claim C5 -/

/-- C5: for the timm library (which declares the default fallback model
type "default-timm-config" in `_MODEL_TYPE_FOR_DEFAULT_CONFIG`),
`get_exporter_config_constructor` with a model type absent from the timm
table and task "image-classification" (exporter "onnx") substitutes the
default model type and returns its constructor instead of failing.
ONNX availability is required for the timm table's onnx entry to exist;
`tfA` (TensorFlow availability) is arbitrary. -/
theorem timm_default_model_type_fallback (reg : Registry) (tfA : Bool) (mt : String)
    (model_name : Option String)
    (hreg : dictGet reg "timm" = some (TIMM_SUPPORTED_MODEL_TYPE true tfA))
    (habs : dictGet (TIMM_SUPPORTED_MODEL_TYPE true tfA) (pyReplace (pyLower mt) "_" "-")
      = none) :
    get_exporter_config_constructor reg "onnx" "image-classification" (some mt) model_name
      (some "timm")
      = .ok ⟨⟨"TimmDefaultOnnxConfig", true⟩, "image-classification", false⟩ := by
  have htbl : TIMM_SUPPORTED_MODEL_TYPE true tfA
      = [("default-timm-config",
          [("onnx", [("image-classification",
            ⟨⟨"TimmDefaultOnnxConfig", true⟩, "image-classification", false⟩)])])] := rfl
  have hkey : pyReplace (pyLower mt) "_" "-" ≠ "default-timm-config" := by
    intro he
    rw [he, htbl] at habs
    simp [dictGet] at habs
  have hmtkey : mt ≠ "default-timm-config" := by
    intro he
    apply hkey
    rw [he]
    decide
  have hreg2 : dictGet reg "timm"
      = some [("default-timm-config",
          [("onnx", [("image-classification",
            ⟨⟨"TimmDefaultOnnxConfig", true⟩, "image-classification", false⟩)])])] := by
    rw [hreg, htbl]
  simp [get_exporter_config_constructor, get_supported_tasks_for_model_type,
    get_supported_tasks_core, hreg2, hkey, hmtkey, MODEL_TYPE_FOR_DEFAULT_CONFIG, dictGet]

/-- Witness for C5 at a concrete input: model type "resnet50" is not in
the timm table but the default-config constructor is returned. -/
theorem timm_default_model_type_fallback_witness :
    get_exporter_config_constructor [("timm", TIMM_SUPPORTED_MODEL_TYPE true false)] "onnx"
      "image-classification" (some "resnet50") none (some "timm")
      = .ok ⟨⟨"TimmDefaultOnnxConfig", true⟩, "image-classification", false⟩ :=
  timm_default_model_type_fallback [("timm", TIMM_SUPPORTED_MODEL_TYPE true false)] false
    "resnet50" none rfl (by decide)

/-! ## Claim C6 -/

/-- C6: `determine_framework` with no explicit framework argument, on the
file list ["model_index.json", "unet/diffusion_pytorch_model.bin"] (a
diffusion-pipeline manifest plus a compatible weight extension, no
standalone PyTorch/TensorFlow weight-name match), returns "pt", in any
environment where at least one of the two runtimes is installed. -/
theorem determine_framework_diffusion_scenario (torchA tfA : Bool)
    (request_exception : Option String) (h : torchA = true ∨ tfA = true) :
    determine_framework torchA tfA ["model_index.json", "unet/diffusion_pytorch_model.bin"]
      request_exception none = .ok "pt" := by
  rcases h with h | h
  · subst h; rfl
  · subst h; cases torchA <;> rfl

/-- Witness for C6 at a concrete input. -/
theorem determine_framework_diffusion_scenario_witness :
    determine_framework true false ["model_index.json", "unet/diffusion_pytorch_model.bin"]
      none none = .ok "pt" :=
  determine_framework_diffusion_scenario true false none (Or.inl rfl)

/-! ## Claim C8 -/

/-- C8: a non-None `framework` argument is returned unchanged by
`determine_framework`, with no validation and independently of the
repository file listing (the function returns before the listing is
consulted) — in particular a string like "jax" that is not one of the two
supported tokens is returned as-is, for every environment and every
collaborator output. -/
theorem determine_framework_explicit_passthrough (torchA tfA : Bool)
    (all_files : List String) (request_exception : Option String) (f : String) :
    determine_framework torchA tfA all_files request_exception (some f) = .ok f := rfl

/-! ## Claim C9 -/

/-- C9: when the file list contains both a file matching the PyTorch
weight pattern and a file matching the TensorFlow weight pattern,
`determine_framework` with no explicit framework returns "pt" — the
PyTorch check takes precedence. -/
theorem determine_framework_pt_precedence (torchA tfA : Bool) (all_files : List String)
    (request_exception : Option String)
    (henv : torchA = true ∨ tfA = true)
    (hpt : all_files.any is_pt_weight_file = true)
    (_htf : all_files.any is_tf_weight_file = true) :
    determine_framework torchA tfA all_files request_exception none = .ok "pt" := by
  have hne : ("pt" : String) ≠ "" := by decide
  rcases henv with h | h
  · subst h
    simp [determine_framework, hpt, hne]
  · subst h
    cases torchA <;> simp [determine_framework, hpt, hne]

/-- Witness for C9 at a concrete input: both "pytorch_model.bin" and
"tf_model.h5" present. -/
theorem determine_framework_pt_precedence_witness :
    determine_framework true false ["pytorch_model.bin", "tf_model.h5"] none none = .ok "pt" :=
  determine_framework_pt_precedence true false ["pytorch_model.bin", "tf_model.h5"] none
    (Or.inl rfl) (by decide) (by decide)

/-! ## Claim C7 -/

/-- C7: the final "library name could not be automatically inferred"
guard of `infer_library_from_model` is unreachable when `library_name` is
not supplied: for every file list and every configuration-probe outcome,
the decision chain (whose last branch is an unconditional default) always
assigns one of the four library identifiers, so the function returns
`.ok` with one of "diffusers", "sentence_transformers", "timm",
"transformers". -/
theorem infer_library_guard_unreachable (all_files : List String)
    (configHasTimmFields configHasDiffusersVersion : Bool) :
    ∃ lib, infer_library_from_model all_files configHasTimmFields configHasDiffusersVersion none
        = .ok lib
      ∧ lib ∈ ["diffusers", "sentence_transformers", "timm", "transformers"] := by
  by_cases h1 : "model_index.json" ∈ all_files
  · exact ⟨"diffusers", by simp [infer_library_from_model, h1], by simp⟩
  · by_cases h2 : (∃ x ∈ all_files, pyStartsWith x "sentence_" = true)
        ∨ "config_sentence_transformers.json" ∈ all_files
    · exact ⟨"sentence_transformers", by simp [infer_library_from_model, h1, h2], by simp⟩
    · by_cases h3 : CONFIG_NAME ∈ all_files
      · cases ht : configHasTimmFields
        · cases hd : configHasDiffusersVersion
          · exact ⟨"transformers", by simp [infer_library_from_model, h1, h2, h3, ht, hd],
              by simp⟩
          · exact ⟨"diffusers", by simp [infer_library_from_model, h1, h2, h3, ht, hd],
              by simp⟩
        · exact ⟨"timm", by simp [infer_library_from_model, h1, h2, h3, ht], by simp⟩
      · exact ⟨"transformers", by simp [infer_library_from_model, h1, h2, h3], by simp⟩
